import Mathlib

/-!
Verification development for the DayZ server container manager
(`gionkunz/dayz-server`). The TypeScript sources are shallowly embedded:
pure functions become Lean functions, subprocess and filesystem effects
become explicit oracles/event traces. String-valued fields use `String`
(or `List Char` where character-level processing matters), numeric YAML
fields use `Int`, optional TS fields use `Option`.
-/

namespace DayZ

/-- `InstallResult` from `src/steamcmd/installer.ts`: the optional
`steamGuardRequired?` field is modelled with default `false`
(absent ≡ false for every consumer, which only ever truth-tests it). -/
structure InstallResult where
  success : Bool
  message : String
  steamGuardRequired : Bool := false
deriving Repr, DecidableEq

/-- `ModConfig` from `src/config/schema.ts`: one workshop-mod entry.
The opaque `config?: Record<string, unknown>` payload is modelled as an
optional association list (it is never inspected by the core code). -/
structure ModConfig where
  workshopId : String
  name : String
  clientRequired : Bool
  serverSide : Bool
  config : Option (List (String × String)) := none
deriving Repr, DecidableEq

/-- `VPPAdminToolsConfig` from `src/config/schema.ts`. -/
structure VPPAdminToolsConfig where
  superAdmins : List String
  password : Option String := none
  disablePassword : Option Bool := none
  webhooksDiscord : Option String := none
deriving Repr, DecidableEq

/-- The `modConfigs` block of `DayZServerConfig` (known key plus the
fact that unknown keys are passed through opaquely; only the known key
is ever read by the core code). -/
structure ModConfigsBlock where
  vppAdminTools : Option VPPAdminToolsConfig := none
deriving Repr, DecidableEq

/-- `ServerConfig` from `src/config/schema.ts`. -/
structure ServerConfig where
  name : String
  password : Option String := none
  adminPassword : String
  maxPlayers : Int
  port : Int
  steamQueryPort : Int
  battleEye : Bool
  verifySignatures : Int
  timeAcceleration : Option Int := none
  nightTimeAcceleration : Option Int := none
  persistent : Bool
  disableThirdPerson : Option Bool := none
  disableCrosshair : Option Bool := none
  motd : Option (List String) := none
  mission : String
deriving Repr, DecidableEq

/-- The `paths` block of `DayZServerConfig`. -/
structure PathsConfig where
  steamcmd : String
  serverInstall : String
  profiles : String
  mods : String
deriving Repr, DecidableEq

/-- The `steam` credential block as read/written by
`src/entrypoint.ts` (`mergeEnvIntoConfig` assigns `config.steam.username`
etc.; each field may be absent in the YAML document). -/
structure SteamBlock where
  username : Option String := none
  password : Option String := none
  steamGuardCode : Option String := none
deriving Repr, DecidableEq

/-- `DayZServerConfig` from `src/config/schema.ts`, extended with the
`steam` block that `src/entrypoint.ts` reads and writes on the same
object (`config.steam`). -/
structure DayZServerConfig where
  server : ServerConfig
  mods : List ModConfig
  modConfigs : Option ModConfigsBlock := none
  paths : PathsConfig
  steam : SteamBlock := {}
deriving Repr, DecidableEq

/-- `validateConfig` from `src/config/schema.ts`: collects one message
per violated rule into a single list, in source order, without
short-circuiting. TS truthiness `!s` on a string is emptiness. -/
def validateConfig (config : DayZServerConfig) : List String :=
  (if config.server.name = "" then ["Server name is required"] else []) ++
  (if config.server.adminPassword = "" then ["Admin password is required"] else []) ++
  (if config.server.port < 1 ∨ config.server.port > 65535 then
    ["Server port must be between 1 and 65535"] else []) ++
  (if config.server.maxPlayers < 1 ∨ config.server.maxPlayers > 127 then
    ["Max players must be between 1 and 127"] else []) ++
  (config.mods.flatMap fun mod =>
    (if mod.workshopId = "" then
      ["Mod " ++ "\"" ++ mod.name ++ "\"" ++ " is missing workshopId"] else []) ++
    (if mod.name = "" then
      ["Mod with workshopId " ++ "\"" ++ mod.workshopId ++ "\"" ++ " is missing name"] else []))

/-- Number of violated validation rules in a configuration: the four
server-block rules plus two rules per mod entry. -/
def violationCount (config : DayZServerConfig) : Nat :=
  (if config.server.name = "" then 1 else 0) +
  (if config.server.adminPassword = "" then 1 else 0) +
  (if config.server.port < 1 ∨ config.server.port > 65535 then 1 else 0) +
  (if config.server.maxPlayers < 1 ∨ config.server.maxPlayers > 127 then 1 else 0) +
  (config.mods.map fun mod =>
    (if mod.workshopId = "" then 1 else 0) + (if mod.name = "" then 1 else 0)).sum

/-- The single-quote character. -/
def qc : Char := Char.ofNat 39

/-- The backslash character. -/
def bsc : Char := Char.ofNat 92

/-- Body of `shellEscape` from `src/steamcmd/installer.ts`:
`str.replace(/'/g, "'\\''")` — every single quote is rewritten to the
four characters close-quote, backslash, quote, reopen-quote. -/
def escBody : List Char → List Char
  | [] => []
  | c :: t =>
    if c = qc then qc :: bsc :: qc :: qc :: escBody t
    else c :: escBody t

/-- `shellEscape` from `src/steamcmd/installer.ts`: wrap in single
quotes with the embedded-quote rewriting of `escBody`. -/
def shellEscape (s : List Char) : List Char := qc :: (escBody s ++ [qc])

/-- String-typed wrapper of `shellEscape`, used by `buildLoginCommand`. -/
def shellEscapeS (s : String) : String := String.mk (shellEscape s.toList)

/-- Characters a POSIX shell treats specially outside of quoting
(word-splitting whitespace, expansion and command-substitution
introducers, operators, globbing). Our word parser refuses to treat
them as literal text. -/
def isShellMeta (c : Char) : Bool :=
  c = ' ' || c.toNat = 9 || c.toNat = 10 || c.toNat = 13 ||
  c = Char.ofNat 34 || c = Char.ofNat 36 || c = Char.ofNat 96 ||
  c = '|' || c = '&' || c = ';' || c = '(' || c = ')' ||
  c = '<' || c = '>' || c = '*' || c = '?' || c = '~' || c = '#'

/-- A POSIX shell reading one word token: `inQuote` says whether we are
inside a single-quoted region (everything literal until the closing
quote); outside quotes a backslash escapes the next character and bare
shell metacharacters are rejected (they would not be literal text).
Returns the text the shell would hand to the program, or `none` for an
unterminated/ill-formed token. -/
def posixReadWord : Bool → List Char → Option (List Char)
  | true, [] => none
  | true, c :: t =>
    if c = qc then posixReadWord false t
    else (posixReadWord true t).map (c :: ·)
  | false, [] => some []
  | false, c :: t =>
    if c = qc then posixReadWord true t
    else if c = bsc then
      match t with
      | [] => none
      | d :: t2 => (posixReadWord false t2).map (d :: ·)
    else if isShellMeta c then none
    else (posixReadWord false t).map (c :: ·)

/-- `SteamCredentials` from `src/config/schema.ts`. -/
structure SteamCredentials where
  username : String
  password : String
  steamGuardCode : String
deriving Repr, DecidableEq

/-- `buildLoginCommand` from `src/steamcmd/installer.ts`: anonymous
when no username; otherwise username, then password and Steam Guard
code when present (TS truthiness on strings = non-emptiness), each
passed through `shellEscape`. -/
def buildLoginCommand (credentials : SteamCredentials) : String :=
  if credentials.username = "" then "+login anonymous"
  else
    let loginCmd := "+login " ++ shellEscapeS credentials.username
    let loginCmd :=
      if credentials.password = "" then loginCmd
      else loginCmd ++ " " ++ shellEscapeS credentials.password
    if credentials.steamGuardCode = "" then loginCmd
    else loginCmd ++ " " ++ shellEscapeS credentials.steamGuardCode

/-- The `close`-event handler of `installServer` in
`src/steamcmd/installer.ts`, as a function of the SteamCMD subprocess
exit code. -/
def installServerOnClose (code : Nat) : InstallResult :=
  if code = 0 then
    { success := true, message := "DayZ Server installed/updated successfully" }
  else if code = 5 then
    { success := false
      message := "Steam Guard code required. Please check your email and update config with the code."
      steamGuardRequired := true }
  else
    { success := false, message := "Installation failed with exit code " ++ toString code }

/-- Filesystem actions the `close`-handler of `installMod` may take. -/
inductive FsEvent where
  | removedExisting (dest : String)
  | symlinked (source dest : String)
deriving Repr, DecidableEq

/-- The `close`-event handler of `installMod` in
`src/steamcmd/installer.ts`: exit-code handling as for the server,
plus, on exit 0 only, the link step guarded by `fs.existsSync` on the
downloaded content directory (`modSourceExists`/`modDestExists` are the
filesystem oracle). -/
def installModOnClose (code : Nat) (modSourceExists modDestExists : Bool)
    (workshopPath serverPath workshopId modName : String) :
    InstallResult × List FsEvent :=
  if code = 0 then
    let modSource := workshopPath ++ "/" ++ workshopId
    let modDest := serverPath ++ "/" ++ modName
    ({ success := true, message := "Mod " ++ modName ++ " installed successfully" },
      if modSourceExists then
        (if modDestExists then [FsEvent.removedExisting modDest] else []) ++
          [FsEvent.symlinked modSource modDest]
      else [])
  else if code = 5 then
    ({ success := false, message := "Steam Guard code required."
       steamGuardRequired := true }, [])
  else
    ({ success := false
       message := "Mod installation failed with exit code " ++ toString code }, [])

/-- `buildModString` from `src/steamcmd/installer.ts`: names of the
mods with `serverSide = false`, joined with a semicolon. -/
def buildModString (mods : List ModConfig) : String :=
  String.intercalate ";" ((mods.filter fun m => !m.serverSide).map fun m => m.name)

/-- `buildServerModString` from `src/steamcmd/installer.ts`: names of
the mods with `serverSide = true`, joined with a semicolon. -/
def buildServerModString (mods : List ModConfig) : String :=
  String.intercalate ";" ((mods.filter fun m => m.serverSide).map fun m => m.name)

/-- The three credential-relevant process environment variables; `none`
means the variable is unset, `some ""` means set to the empty string
(as the Dockerfile does by default). -/
structure Env where
  steamUsername : Option String := none
  steamPassword : Option String := none
  steamGuardCode : Option String := none
deriving Repr, DecidableEq

/-- JS truthiness of `process.env.X`: set and non-empty. -/
def envTruthy : Option String → Bool
  | some s => !(s = "")
  | none => false

/-- `mergeEnvIntoConfig` from `src/entrypoint.ts`: each credential
field of `config.steam` is overwritten by the corresponding environment
variable when that variable is truthy. -/
def mergeEnvIntoConfig (env : Env) (config : DayZServerConfig) : DayZServerConfig :=
  { config with
    steam :=
      { username :=
          if envTruthy env.steamUsername then env.steamUsername
          else config.steam.username
        password :=
          if envTruthy env.steamPassword then env.steamPassword
          else config.steam.password
        steamGuardCode :=
          if envTruthy env.steamGuardCode then env.steamGuardCode
          else config.steam.steamGuardCode } }

/-- `getSteamCredentials` from `src/config/schema.ts`: reads the three
environment variables, defaulting each to the empty string (`X || ''`;
a variable set to the empty string also yields the empty string). -/
def getSteamCredentials (env : Env) : SteamCredentials :=
  { username := env.steamUsername.getD ""
    password := env.steamPassword.getD ""
    steamGuardCode := env.steamGuardCode.getD "" }

/-- A possibly-partial `server` block as parsed from YAML: every field
optional. -/
structure PartialServer where
  name : Option String := none
  password : Option String := none
  adminPassword : Option String := none
  maxPlayers : Option Int := none
  port : Option Int := none
  steamQueryPort : Option Int := none
  battleEye : Option Bool := none
  verifySignatures : Option Int := none
  timeAcceleration : Option Int := none
  nightTimeAcceleration : Option Int := none
  persistent : Option Bool := none
  disableThirdPerson : Option Bool := none
  disableCrosshair : Option Bool := none
  motd : Option (List String) := none
  mission : Option String := none
deriving Repr, DecidableEq

/-- A possibly-partial `paths` block as parsed from YAML. -/
structure PartialPaths where
  steamcmd : Option String := none
  serverInstall : Option String := none
  profiles : Option String := none
  mods : Option String := none
deriving Repr, DecidableEq

/-- A raw configuration document as parsed from YAML: every top-level
key may be missing. The `steam` key is read by `src/entrypoint.ts`'s
`loadConfig`; `SteamBlock` is already field-wise optional. -/
structure PartialDoc where
  server : Option PartialServer := none
  mods : Option (List ModConfig) := none
  modConfigs : Option ModConfigsBlock := none
  paths : Option PartialPaths := none
  steam : Option SteamBlock := none
deriving Repr, DecidableEq

/-- The `server` block of `DEFAULT_CONFIG` in `src/config/schema.ts`,
viewed field-wise (fields absent from the default are `none`). -/
def defaultServer : PartialServer :=
  { name := some "DayZ Server"
    password := some ""
    adminPassword := some "changeme"
    maxPlayers := some 60
    port := some 2302
    steamQueryPort := some 27016
    battleEye := some true
    verifySignatures := some 2
    persistent := some true
    mission := some "dayzOffline.chernarusplus" }

/-- The `paths` block of `DEFAULT_CONFIG` in `src/config/schema.ts`. -/
def defaultPaths : PartialPaths :=
  { steamcmd := some "/opt/steamcmd"
    serverInstall := some "/opt/dayz-server"
    profiles := some "/opt/dayz-server/profiles"
    mods := some "/opt/dayz-server/mods" }

/-- JS object-spread `\x7b...dflt, ...d\x7d` on a `server` block:
field-wise, a key present in `d` wins over the default. -/
def spreadServer (dflt d : PartialServer) : PartialServer :=
  { name := d.name <|> dflt.name
    password := d.password <|> dflt.password
    adminPassword := d.adminPassword <|> dflt.adminPassword
    maxPlayers := d.maxPlayers <|> dflt.maxPlayers
    port := d.port <|> dflt.port
    steamQueryPort := d.steamQueryPort <|> dflt.steamQueryPort
    battleEye := d.battleEye <|> dflt.battleEye
    verifySignatures := d.verifySignatures <|> dflt.verifySignatures
    timeAcceleration := d.timeAcceleration <|> dflt.timeAcceleration
    nightTimeAcceleration := d.nightTimeAcceleration <|> dflt.nightTimeAcceleration
    persistent := d.persistent <|> dflt.persistent
    disableThirdPerson := d.disableThirdPerson <|> dflt.disableThirdPerson
    disableCrosshair := d.disableCrosshair <|> dflt.disableCrosshair
    motd := d.motd <|> dflt.motd
    mission := d.mission <|> dflt.mission }

/-- JS object-spread on a `paths` block. -/
def spreadPaths (dflt d : PartialPaths) : PartialPaths :=
  { steamcmd := d.steamcmd <|> dflt.steamcmd
    serverInstall := d.serverInstall <|> dflt.serverInstall
    profiles := d.profiles <|> dflt.profiles
    mods := d.mods <|> dflt.mods }

/-- JS object-spread on a `steam` block. -/
def spreadSteam (dflt d : SteamBlock) : SteamBlock :=
  { username := d.username <|> dflt.username
    password := d.password <|> dflt.password
    steamGuardCode := d.steamGuardCode <|> dflt.steamGuardCode }

/-- Result of merging a parsed document over the defaults in
`src/entrypoint.ts`'s `loadConfig`: the merged object always carries
all five top-level keys. -/
structure ResolvedDoc where
  server : PartialServer
  mods : List ModConfig
  modConfigs : ModConfigsBlock
  paths : PartialPaths
  steam : SteamBlock
deriving Repr, DecidableEq

/-- The merge step of `loadConfig` in `src/entrypoint.ts`:
`\x7b...DEFAULT_CONFIG, ...config, steam: \x7b...DEFAULT_CONFIG.steam,
...config.steam\x7d, server: ..., paths: ...\x7d`. `DEFAULT_CONFIG`
has no `steam` key, so the `steam` spread merges over an empty
object. `mods` and `modConfigs` are replaced wholesale when present. -/
def loadConfigEntrypoint (d : PartialDoc) : ResolvedDoc :=
  { server := spreadServer defaultServer (d.server.getD {})
    mods := d.mods.getD []
    modConfigs := d.modConfigs.getD {}
    paths := spreadPaths defaultPaths (d.paths.getD {})
    steam := spreadSteam {} (d.steam.getD {}) }

/-- Result of the CLI merge (`loadConfig` in `src/cli.ts`): no `steam`
override is listed, so the document's `steam` key (if any) passes
through the top-level spread wholesale. -/
structure ResolvedDocCli where
  server : PartialServer
  mods : List ModConfig
  modConfigs : ModConfigsBlock
  paths : PartialPaths
  steam : Option SteamBlock
deriving Repr, DecidableEq

/-- The merge step of the CLI `loadConfig`:
`\x7b...DEFAULT_CONFIG, ...config, server: ..., paths: ...\x7d`. -/
def loadConfigCli (d : PartialDoc) : ResolvedDocCli :=
  { server := spreadServer defaultServer (d.server.getD {})
    mods := d.mods.getD []
    modConfigs := d.modConfigs.getD {}
    paths := spreadPaths defaultPaths (d.paths.getD {})
    steam := d.steam }

/-- A `server` block with every field present. -/
def PartialServer.full (s : PartialServer) : Prop :=
  s.name.isSome ∧ s.password.isSome ∧ s.adminPassword.isSome ∧
  s.maxPlayers.isSome ∧ s.port.isSome ∧ s.steamQueryPort.isSome ∧
  s.battleEye.isSome ∧ s.verifySignatures.isSome ∧
  s.timeAcceleration.isSome ∧ s.nightTimeAcceleration.isSome ∧
  s.persistent.isSome ∧ s.disableThirdPerson.isSome ∧
  s.disableCrosshair.isSome ∧ s.motd.isSome ∧ s.mission.isSome

instance (s : PartialServer) : Decidable s.full := by
  unfold PartialServer.full; infer_instance

/-- A `paths` block with every field present. -/
def PartialPaths.full (p : PartialPaths) : Prop :=
  p.steamcmd.isSome ∧ p.serverInstall.isSome ∧ p.profiles.isSome ∧ p.mods.isSome

instance (p : PartialPaths) : Decidable p.full := by
  unfold PartialPaths.full; infer_instance

/-- Observable actions of `ModManager.installMod`/`installAllMods` in
`src/mods/manager.ts`. -/
inductive ModEvent where
  | installModCalled (workshopId name : String)
  | keysCopied (name : String)
  | failureLogged (name message : String)
  | guardHintPrinted
deriving Repr, DecidableEq

/-- `ModManager.installMod` from `src/mods/manager.ts`, for one mod,
with the installer's per-mod result supplied by the oracle `outcome`:
invoke the installer, then `copyModKeys` on success, else log the
failure (and the Steam Guard hint when flagged). -/
def managerInstallMod (outcome : ModConfig → InstallResult) (mod : ModConfig) :
    List ModEvent :=
  let result := outcome mod
  ModEvent.installModCalled mod.workshopId mod.name ::
    (if result.success then [ModEvent.keysCopied mod.name]
     else
       ModEvent.failureLogged mod.name result.message ::
         (if result.steamGuardRequired then [ModEvent.guardHintPrinted] else []))

/-- `ModManager.installAllMods` from `src/mods/manager.ts`: throws when
the manager was constructed without credentials; otherwise processes
every configured mod in order, never aborting on a per-mod failure. -/
def installAllMods (credentials : Option SteamCredentials)
    (mods : List ModConfig) (outcome : ModConfig → InstallResult) :
    Except String (List ModEvent) :=
  match credentials with
  | none => Except.error "Steam credentials required for mod installation"
  | some _ => Except.ok (mods.flatMap (managerInstallMod outcome))

/-- Name carried by a `keysCopied` event. -/
def keysCopiedName : ModEvent → Option String
  | ModEvent.keysCopied n => some n
  | _ => none

/-- Mod name and message carried by a `failureLogged` event. -/
def failureLog : ModEvent → Option (String × String)
  | ModEvent.failureLogged n m => some (n, m)
  | _ => none

/-- Workshop id and name carried by an `installModCalled` event. -/
def installCall : ModEvent → Option (String × String)
  | ModEvent.installModCalled w n => some (w, n)
  | _ => none

/-- Observable steps of the full-install pipelines. -/
inductive PipeEvent where
  | steamcmdInstallInvoked
  | serverInstallInvoked
  | modInstallInvoked (workshopId name : String)
  | serverConfigGenerated
  | modsConfigured
deriving Repr, DecidableEq

/-- Terminal state of a full-install pipeline run. -/
inductive PipeOutcome where
  | completed
  | validationFailed (errors : List String)
  | steamcmdFailed (message : String)
  | serverInstallFailed (message : String)
  | threwError (message : String)
deriving Repr, DecidableEq

/-- View a mod-manager event as a pipeline event (only installer
invocations are subprocess-relevant). -/
def modEventToPipe : ModEvent → Option PipeEvent
  | ModEvent.installModCalled w n => some (PipeEvent.modInstallInvoked w n)
  | _ => none

/-- `cmdInstall` from `src/entrypoint.ts`: validate, install SteamCMD
if missing, install the server, then step 3 constructs
`new ModManager(config)` — without passing credentials — and awaits
`installAllMods`; an exception there propagates to `main`'s catch.
Steps 4 and 5 generate the server config and configure mods.
Subprocess results come from the oracles (`steamcmdInstalled`,
`steamcmdResult`, `serverResult`, `outcome`). -/
def cmdInstall (config : DayZServerConfig) (steamcmdInstalled : Bool)
    (steamcmdResult : InstallResult) (serverResult : InstallResult)
    (outcome : ModConfig → InstallResult) : PipeOutcome × List PipeEvent :=
  let errors := validateConfig config
  if errors ≠ [] then (PipeOutcome.validationFailed errors, [])
  else
    let pre := if steamcmdInstalled then [] else [PipeEvent.steamcmdInstallInvoked]
    if !steamcmdInstalled && !steamcmdResult.success then
      (PipeOutcome.steamcmdFailed steamcmdResult.message, pre)
    else
      let evs := pre ++ [PipeEvent.serverInstallInvoked]
      if !serverResult.success then
        (PipeOutcome.serverInstallFailed serverResult.message, evs)
      else
        match installAllMods none config.mods outcome with
        | Except.error msg => (PipeOutcome.threwError msg, evs)
        | Except.ok modEvents =>
          (PipeOutcome.completed,
            evs ++ modEvents.filterMap modEventToPipe ++
              [PipeEvent.serverConfigGenerated, PipeEvent.modsConfigured])

/-- The `install` command action from `src/cli.ts`: credentials are
resolved once via `getSteamCredentials` and passed to the
`ModManager` constructor, so `installAllMods` receives them. No
validation step is run by this command. -/
def cliInstall (config : DayZServerConfig) (env : Env) (steamcmdInstalled : Bool)
    (steamcmdResult : InstallResult) (serverResult : InstallResult)
    (outcome : ModConfig → InstallResult) : PipeOutcome × List PipeEvent :=
  let credentials := getSteamCredentials env
  let pre := if steamcmdInstalled then [] else [PipeEvent.steamcmdInstallInvoked]
  if !steamcmdInstalled && !steamcmdResult.success then
    (PipeOutcome.steamcmdFailed steamcmdResult.message, pre)
  else
    let evs := pre ++ [PipeEvent.serverInstallInvoked]
    if !serverResult.success then
      (PipeOutcome.serverInstallFailed serverResult.message, evs)
    else
      match installAllMods (some credentials) config.mods outcome with
      | Except.error msg => (PipeOutcome.threwError msg, evs)
      | Except.ok modEvents =>
        (PipeOutcome.completed,
          evs ++ modEvents.filterMap modEventToPipe ++
            [PipeEvent.serverConfigGenerated, PipeEvent.modsConfigured])

/-- Is a pipeline event a mod-related subprocess invocation? -/
def isModInvocation : PipeEvent → Bool
  | PipeEvent.modInstallInvoked _ _ => true
  | _ => false

/-- JS `\s` (whitespace) character class on the characters relevant
here. -/
def isJsWs (c : Char) : Bool :=
  c = ' ' || c.toNat = 9 || c.toNat = 10 || c.toNat = 13 ||
  c.toNat = 11 || c.toNat = 12

/-- Does `pat` occur as a prefix of `s`? -/
def startsWithL : List Char → List Char → Bool
  | _, [] => true
  | [], _ :: _ => false
  | c :: t, p :: ps => c = p && startsWithL t ps

/-- JS `String.includes`: does `pat` occur as a substring of `s`? -/
def containsSub : List Char → List Char → Bool
  | [], pat => pat.isEmpty
  | c :: t, pat => startsWithL (c :: t) pat || containsSub t pat

/-- The literal characters of `vppDisablePassword`. -/
def vppName : List Char := "vppDisablePassword".toList

/-- Greedily drop JS whitespace. -/
def dropWs : List Char → List Char
  | [] => []
  | c :: t => if isJsWs c then dropWs t else c :: t

/-- Greedily drop decimal digits, counting them. -/
def dropDigits : List Char → Nat × List Char
  | [] => (0, [])
  | c :: t =>
    if c.isDigit then
      let r := dropDigits t
      (r.1 + 1, r.2)
    else (0, c :: t)

/-- Drop a literal prefix, or fail. -/
def dropLiteral : List Char → List Char → Option (List Char)
  | s, [] => some s
  | [], _ :: _ => none
  | c :: t, p :: ps => if c = p then dropLiteral t ps else none

/-- Match the regex `vppDisablePassword\s*=\s*\d+;` at the head of the
input (the regex is deterministic: each greedy piece is followed by a
character outside its class). Returns the remainder after the match. -/
def matchDirective (s : List Char) : Option (List Char) := do
  let r1 ← dropLiteral s vppName
  let r2 := dropWs r1
  let r3 ← dropLiteral r2 ['=']
  let r4 := dropWs r3
  let (n, r5) := dropDigits r4
  if n = 0 then none
  else dropLiteral r5 [';']

/-- Does the directive regex match anywhere in `s`? -/
def hasDirectiveMatch : List Char → Bool
  | [] => false
  | c :: t => (matchDirective (c :: t)).isSome || hasDirectiveMatch t

/-- JS `String.replace` with the non-global directive regex: replace
the first (leftmost) match with `repl`, or return the string unchanged
when there is no match. -/
def replaceFirstDirective (repl : List Char) : List Char → List Char
  | [] => []
  | c :: t =>
    match matchDirective (c :: t) with
    | some rest => repl ++ rest
    | none => c :: replaceFirstDirective repl t

/-- The replacement text `vppDisablePassword = <0|1>;`. -/
def directiveText (disablePassword : Bool) : List Char :=
  vppName ++ " = ".toList ++ (if disablePassword then ['1'] else ['0']) ++ [';']

/-- The appended block when the name is absent:
newline, comment line, newline, directive, newline. -/
def appendedBlock (disablePassword : Bool) : List Char :=
  "\n// VPP Admin Tools - Disable password requirement\n".toList ++
    directiveText disablePassword ++ "\n".toList

/-- `VPPAdminToolsConfigurator.updateServerConfig` from
`src/mods/configurators/vpp-admin-tools.ts`, over the content of
`serverDZ.cfg` (`none` = file absent). The TS guard `if (!content)`
returns early both when the file is absent and when it is empty, in
which case nothing is written. Returns the content written back, if
any. -/
def updateServerConfig (disablePassword : Bool) (content : Option (List Char)) :
    Option (List Char) :=
  match content with
  | none => none
  | some c =>
    if c.isEmpty then none
    else if containsSub c vppName then
      some (replaceFirstDirective (directiveText disablePassword) c)
    else
      some (c ++ appendedBlock disablePassword)

/-- A valid configuration with an empty mod list, used as a concrete
test input. -/
def cfgFixture : DayZServerConfig :=
  { server :=
      { name := "My DayZ Server"
        password := some ""
        adminPassword := "changeme123"
        maxPlayers := 60
        port := 2302
        steamQueryPort := 27016
        battleEye := true
        verifySignatures := 2
        persistent := true
        mission := "dayzOffline.chernarusplus" }
    mods := []
    modConfigs := some {}
    paths :=
      { steamcmd := "/opt/steamcmd"
        serverInstall := "/opt/dayz-server"
        profiles := "/opt/dayz-server/profiles"
        mods := "/opt/dayz-server/mods" } }

/-- C1: for every invocation of installServer or installMod whose
SteamCMD subprocess exits with code 0, the returned result has
success = true; on exit code 5, success = false and
steamGuardRequired = true; on any other nonzero code, success = false,
steamGuardRequired false (the field is absent in TS), and the numeric
exit code appears verbatim in the message. -/
theorem exit_code_contract (code : Nat) (se de : Bool) (wp sp wid mn : String) :
    (code = 0 →
      (installServerOnClose code).success = true ∧
      (installModOnClose code se de wp sp wid mn).1.success = true) ∧
    (code = 5 →
      ((installServerOnClose code).success = false ∧
        (installServerOnClose code).steamGuardRequired = true) ∧
      ((installModOnClose code se de wp sp wid mn).1.success = false ∧
        (installModOnClose code se de wp sp wid mn).1.steamGuardRequired = true)) ∧
    (code ≠ 0 → code ≠ 5 →
      ((installServerOnClose code).success = false ∧
        (installServerOnClose code).steamGuardRequired = false ∧
        ∃ pre, (installServerOnClose code).message = pre ++ toString code) ∧
      ((installModOnClose code se de wp sp wid mn).1.success = false ∧
        (installModOnClose code se de wp sp wid mn).1.steamGuardRequired = false ∧
        ∃ pre, (installModOnClose code se de wp sp wid mn).1.message = pre ++ toString code)) := by
  refine ⟨?_, ?_, ?_⟩
  · intro h
    subst h
    exact ⟨rfl, rfl⟩
  · intro h
    subst h
    exact ⟨⟨rfl, rfl⟩, rfl, rfl⟩
  · intro h0 h5
    have hs : installServerOnClose code =
        { success := false, message := "Installation failed with exit code " ++ toString code } := by
      unfold installServerOnClose
      rw [if_neg h0, if_neg h5]
    have hm : installModOnClose code se de wp sp wid mn =
        ({ success := false
           message := "Mod installation failed with exit code " ++ toString code }, []) := by
      unfold installModOnClose
      rw [if_neg h0, if_neg h5]
    rw [hs, hm]
    exact ⟨⟨rfl, rfl, _, rfl⟩, rfl, rfl, _, rfl⟩

/-- Witness for C1 at the concrete exit code 7. -/
theorem exit_code_contract_witness :
    ((installServerOnClose 7).success = false ∧
      (installServerOnClose 7).steamGuardRequired = false ∧
      ∃ pre, (installServerOnClose 7).message = pre ++ toString 7) ∧
    ((installModOnClose 7 false false "/w" "/s" "42" "@CF").1.success = false ∧
      (installModOnClose 7 false false "/w" "/s" "42" "@CF").1.steamGuardRequired = false ∧
      ∃ pre, (installModOnClose 7 false false "/w" "/s" "42" "@CF").1.message = pre ++ toString 7) :=
  (exit_code_contract 7 false false "/w" "/s" "42" "@CF").2.2 (by decide) (by decide)

/-- C9: when installMod's subprocess exits 0 but the downloaded
workshop content directory does not exist, the result still has
success = true with the success message, and no filesystem link is
created. -/
theorem installMod_success_without_content (code : Nat) (de : Bool)
    (wp sp wid mn : String) (h : code = 0) :
    (installModOnClose code false de wp sp wid mn).1.success = true ∧
    (installModOnClose code false de wp sp wid mn).1.message =
      "Mod " ++ mn ++ " installed successfully" ∧
    (installModOnClose code false de wp sp wid mn).2 = [] := by
  subst h
  exact ⟨rfl, rfl, rfl⟩

/-- Witness for C9 at exit code 0. -/
theorem installMod_success_without_content_witness :
    (installModOnClose 0 false false "/w" "/s" "42" "@CF").1.success = true ∧
    (installModOnClose 0 false false "/w" "/s" "42" "@CF").1.message =
      "Mod " ++ "@CF" ++ " installed successfully" ∧
    (installModOnClose 0 false false "/w" "/s" "42" "@CF").2 = [] :=
  installMod_success_without_content 0 false "/w" "/s" "42" "@CF" rfl

lemma posixReadWord_true_qc (t : List Char) :
    posixReadWord true (qc :: t) = posixReadWord false t := by
  simp [posixReadWord]

lemma posixReadWord_true_other {c : Char} (h : c ≠ qc) (t : List Char) :
    posixReadWord true (c :: t) = (posixReadWord true t).map (c :: ·) := by
  simp [posixReadWord, h]

lemma posixReadWord_false_qc (t : List Char) :
    posixReadWord false (qc :: t) = posixReadWord true t := by
  rw [posixReadWord.eq_def]
  simp

lemma posixReadWord_false_bs (d : Char) (t : List Char) :
    posixReadWord false (bsc :: d :: t) = (posixReadWord false t).map (d :: ·) := by
  have h1 : bsc ≠ qc := by decide
  rw [posixReadWord.eq_def]
  simp [h1]

lemma posixReadWord_escBody (s : List Char) :
    posixReadWord true (escBody s ++ [qc]) = some s := by
  induction s with
  | nil =>
    rw [show escBody [] ++ [qc] = [qc] from rfl, posixReadWord_true_qc]
    rfl
  | cons c t ih =>
    by_cases hc : c = qc
    · subst hc
      have hsplit : escBody (qc :: t) ++ [qc] =
          qc :: bsc :: qc :: qc :: (escBody t ++ [qc]) := by
        simp [escBody]
      rw [hsplit, posixReadWord_true_qc, posixReadWord_false_bs,
        posixReadWord_false_qc, ih]
      rfl
    · have hsplit : escBody (c :: t) ++ [qc] = c :: (escBody t ++ [qc]) := by
        simp [escBody, hc]
      rw [hsplit, posixReadWord_true_other hc, ih]
      rfl

/-- C2: shellEscape wraps any string in single quotes, rewriting each
embedded quote as close-quote, escaped quote, reopen-quote, and a POSIX
shell reading the resulting token recovers exactly the original string
(backticks and dollar signs are inert inside single quotes); and
buildLoginCommand applies this escaping uniformly to username, password
and Steam Guard code. -/
theorem shellEscape_roundtrip (s : List Char) (credentials : SteamCredentials)
    (hu : credentials.username ≠ "") (hp : credentials.password ≠ "")
    (hg : credentials.steamGuardCode ≠ "") :
    posixReadWord false (shellEscape s) = some s ∧
    buildLoginCommand credentials =
      "+login " ++ shellEscapeS credentials.username ++ " " ++
        shellEscapeS credentials.password ++ " " ++
        shellEscapeS credentials.steamGuardCode := by
  constructor
  · show posixReadWord false (qc :: (escBody s ++ [qc])) = some s
    rw [posixReadWord_false_qc, posixReadWord_escBody]
  · simp [buildLoginCommand, hu, hp, hg]

/-- Witness for C2 on a string containing a quote, a backtick and a
dollar sign, with all three credential fields present. -/
theorem shellEscape_roundtrip_witness :
    posixReadWord false (shellEscape ('a' :: qc :: Char.ofNat 96 :: Char.ofNat 36 :: ['b'])) =
      some ('a' :: qc :: Char.ofNat 96 :: Char.ofNat 36 :: ['b']) ∧
    buildLoginCommand { username := "user", password := "pw", steamGuardCode := "abc12" } =
      "+login " ++ shellEscapeS "user" ++ " " ++ shellEscapeS "pw" ++ " " ++
        shellEscapeS "abc12" :=
  shellEscape_roundtrip ('a' :: qc :: Char.ofNat 96 :: Char.ofNat 36 :: ['b'])
    { username := "user", password := "pw", steamGuardCode := "abc12" }
    (by decide) (by decide) (by decide)

lemma ite_nil_iff {α : Type} (c : Prop) [Decidable c] (x : α) :
    ((if c then [x] else []) = []) ↔ ¬c := by
  by_cases h : c <;> simp [h]

lemma ite_nil_length {α : Type} (c : Prop) [Decidable c] (x : α) :
    (if c then [x] else ([] : List α)).length = (if c then 1 else 0) := by
  by_cases h : c <;> simp [h]

lemma modErrors_nil_iff (mods : List ModConfig) :
    (mods.flatMap fun mod =>
      (if mod.workshopId = "" then
        ["Mod " ++ "\"" ++ mod.name ++ "\"" ++ " is missing workshopId"] else []) ++
      (if mod.name = "" then
        ["Mod with workshopId " ++ "\"" ++ mod.workshopId ++ "\"" ++ " is missing name"] else [])) = []
    ↔ ∀ m ∈ mods, m.workshopId ≠ "" ∧ m.name ≠ "" := by
  induction mods with
  | nil => simp
  | cons m t ih =>
    simp only [List.flatMap_cons, List.append_eq_nil, ite_nil_iff, ih,
      List.forall_mem_cons]

lemma modErrors_length (mods : List ModConfig) :
    (mods.flatMap fun mod =>
      (if mod.workshopId = "" then
        ["Mod " ++ "\"" ++ mod.name ++ "\"" ++ " is missing workshopId"] else []) ++
      (if mod.name = "" then
        ["Mod with workshopId " ++ "\"" ++ mod.workshopId ++ "\"" ++ " is missing name"] else [])).length
    = (mods.map fun mod =>
        (if mod.workshopId = "" then 1 else 0) + (if mod.name = "" then 1 else 0)).sum := by
  induction mods with
  | nil => rfl
  | cons m t ih =>
    simp only [List.flatMap_cons, List.length_append, ite_nil_length,
      List.map_cons, List.sum_cons, ih]

/-- C3: validateConfig returns the empty list exactly when the server
name and admin password are non-empty, the port lies in [1,65535], the
player cap lies in [1,127], and every mod has a non-empty workshopId
and name; and the number of collected messages equals the number of
violated rules (one message per rule, no short-circuiting; the function
is total, so no exception is raised). -/
theorem validateConfig_spec (config : DayZServerConfig) :
    (validateConfig config = [] ↔
      (config.server.name ≠ "" ∧ config.server.adminPassword ≠ "" ∧
        1 ≤ config.server.port ∧ config.server.port ≤ 65535 ∧
        1 ≤ config.server.maxPlayers ∧ config.server.maxPlayers ≤ 127 ∧
        ∀ m ∈ config.mods, m.workshopId ≠ "" ∧ m.name ≠ "")) ∧
    (validateConfig config).length = violationCount config := by
  constructor
  · simp only [validateConfig, List.append_eq_nil, ite_nil_iff, modErrors_nil_iff]
    constructor
    · rintro ⟨⟨⟨⟨a, b⟩, c⟩, d⟩, e⟩
      refine ⟨a, b, ?_, ?_, ?_, ?_, e⟩ <;> omega
    · rintro ⟨a, b, c1, c2, d1, d2, e⟩
      refine ⟨⟨⟨⟨a, b⟩, ?_⟩, ?_⟩, e⟩ <;> omega
  · simp only [validateConfig, violationCount, List.length_append, ite_nil_length,
      modErrors_length]

lemma installTrace_spec (outcome : ModConfig → InstallResult) (mods : List ModConfig) :
    ((mods.flatMap (managerInstallMod outcome)).filterMap keysCopiedName =
      ((mods.filter fun m => (outcome m).success).map fun m => m.name)) ∧
    ((mods.flatMap (managerInstallMod outcome)).filterMap failureLog =
      ((mods.filter fun m => !(outcome m).success).map fun m => (m.name, (outcome m).message))) ∧
    ((mods.flatMap (managerInstallMod outcome)).filterMap installCall =
      (mods.map fun m => (m.workshopId, m.name))) := by
  induction mods with
  | nil => exact ⟨rfl, rfl, rfl⟩
  | cons m t ih =>
    obtain ⟨ih1, ih2, ih3⟩ := ih
    refine ⟨?_, ?_, ?_⟩ <;>
      cases hs : (outcome m).success <;>
        cases hg : (outcome m).steamGuardRequired <;>
          simp [managerInstallMod, keysCopiedName, failureLog, installCall,
            List.filter_cons, hs, hg, ih1, ih2, ih3]

/-- C4: with credentials present, installAllMods processes every
configured mod in order without aborting after a failure: the batch
call completes with a trace in which the installer was invoked once per
mod in configuration order, copyModKeys was invoked exactly for the
mods whose result has success = true, and each failing mod's name and
failure message were logged. -/
theorem installAllMods_batch (credentials : SteamCredentials)
    (mods : List ModConfig) (outcome : ModConfig → InstallResult) :
    ∃ evs, installAllMods (some credentials) mods outcome = Except.ok evs ∧
      evs.filterMap installCall = (mods.map fun m => (m.workshopId, m.name)) ∧
      evs.filterMap keysCopiedName =
        ((mods.filter fun m => (outcome m).success).map fun m => m.name) ∧
      evs.filterMap failureLog =
        ((mods.filter fun m => !(outcome m).success).map fun m => (m.name, (outcome m).message)) :=
  ⟨_, rfl, (installTrace_spec outcome mods).2.2, (installTrace_spec outcome mods).1,
    (installTrace_spec outcome mods).2.1⟩

lemma length_filter_serverSide (mods : List ModConfig) :
    (mods.filter fun m => !m.serverSide).length +
      (mods.filter fun m => m.serverSide).length = mods.length := by
  induction mods with
  | nil => rfl
  | cons m t ih =>
    cases hm : m.serverSide <;> simp [List.filter_cons, hm] <;> omega

/-- C7 (amended): for every mod list, buildModString joins the names
of the mods with serverSide = false and buildServerModString those with
serverSide = true, each in input order, and the member counts of the
two outputs sum to the number of mods; when mod names are pairwise
distinct, no name appears in both outputs. -/
theorem modString_partition (mods : List ModConfig) :
    buildModString mods =
      String.intercalate ";" ((mods.filter fun m => !m.serverSide).map fun m => m.name) ∧
    buildServerModString mods =
      String.intercalate ";" ((mods.filter fun m => m.serverSide).map fun m => m.name) ∧
    ((mods.filter fun m => !m.serverSide).map fun m => m.name).length +
      ((mods.filter fun m => m.serverSide).map fun m => m.name).length = mods.length ∧
    ((mods.map fun m => m.name).Nodup →
      ∀ n, n ∈ ((mods.filter fun m => !m.serverSide).map fun m => m.name) →
        n ∉ ((mods.filter fun m => m.serverSide).map fun m => m.name)) := by
  refine ⟨rfl, rfl, by simpa using length_filter_serverSide mods, ?_⟩
  intro h n hc hs
  obtain ⟨m1, hm1, hn1⟩ := List.mem_map.mp hc
  obtain ⟨m2, hm2, hn2⟩ := List.mem_map.mp hs
  have hm1f := List.mem_filter.mp hm1
  have hm2f := List.mem_filter.mp hm2
  have heq : m1 = m2 :=
    List.inj_on_of_nodup_map h hm1f.1 hm2f.1 (by rw [hn1, hn2])
  rw [heq] at hm1f
  have h1 := hm1f.2
  have h2 := hm2f.2
  simp [h2] at h1

/-- A two-mod list with distinct names, one client-side and one
server-side. -/
def modsFixture : List ModConfig :=
  [{ workshopId := "1", name := "@CF", clientRequired := true, serverSide := false },
   { workshopId := "2", name := "@SrvMod", clientRequired := false, serverSide := true }]

/-- Two mods sharing one name, one client-side and one server-side. -/
def modsDupFixture : List ModConfig :=
  [{ workshopId := "1", name := "@Dup", clientRequired := true, serverSide := false },
   { workshopId := "2", name := "@Dup", clientRequired := true, serverSide := true }]

/-- Witness for C7 on a two-mod list with distinct names, one
client-side and one server-side, discharging the Nodup hypothesis of
the no-overlap clause. -/
theorem modString_partition_witness :
    buildModString modsFixture =
      String.intercalate ";" ((modsFixture.filter fun m => !m.serverSide).map fun m => m.name) ∧
    buildServerModString modsFixture =
      String.intercalate ";" ((modsFixture.filter fun m => m.serverSide).map fun m => m.name) ∧
    ((modsFixture.filter fun m => !m.serverSide).map fun m => m.name).length +
      ((modsFixture.filter fun m => m.serverSide).map fun m => m.name).length =
        modsFixture.length ∧
    ∀ n, n ∈ ((modsFixture.filter fun m => !m.serverSide).map fun m => m.name) →
      n ∉ ((modsFixture.filter fun m => m.serverSide).map fun m => m.name) :=
  ⟨(modString_partition modsFixture).1, (modString_partition modsFixture).2.1,
    (modString_partition modsFixture).2.2.1,
    (modString_partition modsFixture).2.2.2 (by decide)⟩

/-- Counterexample for C7 as stated: two mods sharing the name "@Dup",
one with serverSide = false and one with serverSide = true — the name
appears in both outputs, refuting "no mod name appears in both". -/
theorem modString_dup_counterexample :
    buildModString modsDupFixture = "@Dup" ∧
    buildServerModString modsDupFixture = "@Dup" ∧
    "@Dup" ∈ ((modsDupFixture.filter fun m => !m.serverSide).map fun m => m.name) ∧
    "@Dup" ∈ ((modsDupFixture.filter fun m => m.serverSide).map fun m => m.name) := by
  refine ⟨rfl, rfl, by decide, by decide⟩

lemma orElse_of_isSome {α : Type} {x : Option α} (h : x.isSome) (y : Option α) :
    (x <|> y) = x := by
  cases x with
  | none => simp at h
  | some v => rfl

lemma orElse_none {α : Type} (x : Option α) : (x <|> none) = x := by
  cases x <;> rfl

lemma spreadServer_full (dflt : PartialServer) {s : PartialServer} (h : s.full) :
    spreadServer dflt s = s := by
  obtain ⟨h1, h2, h3, h4, h5, h6, h7, h8, h9, h10, h11, h12, h13, h14, h15⟩ := h
  cases s
  simp only [spreadServer, PartialServer.mk.injEq]
  exact ⟨orElse_of_isSome h1 _, orElse_of_isSome h2 _, orElse_of_isSome h3 _,
    orElse_of_isSome h4 _, orElse_of_isSome h5 _, orElse_of_isSome h6 _,
    orElse_of_isSome h7 _, orElse_of_isSome h8 _, orElse_of_isSome h9 _,
    orElse_of_isSome h10 _, orElse_of_isSome h11 _, orElse_of_isSome h12 _,
    orElse_of_isSome h13 _, orElse_of_isSome h14 _, orElse_of_isSome h15 _⟩

lemma spreadPaths_full (dflt : PartialPaths) {p : PartialPaths} (h : p.full) :
    spreadPaths dflt p = p := by
  obtain ⟨h1, h2, h3, h4⟩ := h
  cases p
  simp only [spreadPaths, PartialPaths.mk.injEq]
  exact ⟨orElse_of_isSome h1 _, orElse_of_isSome h2 _, orElse_of_isSome h3 _,
    orElse_of_isSome h4 _⟩

lemma spreadSteam_empty (st : SteamBlock) : spreadSteam {} st = st := by
  cases st
  simp only [spreadSteam, SteamBlock.mk.injEq]
  exact ⟨orElse_none _, orElse_none _, orElse_none _⟩

/-- C5: configuration resolution is idempotent — for a document in
which every block and every field is already present, merging over the
hardcoded defaults (both the entrypoint variant, which also field-merges
the steam block, and the CLI variant, which passes it through) returns
exactly the same document: nothing altered, added, or removed. -/
theorem resolve_idempotent (d : PartialDoc) (s : PartialServer)
    (ms : List ModConfig) (mc : ModConfigsBlock) (p : PartialPaths) (st : SteamBlock)
    (hs : d.server = some s) (hsf : s.full) (hm : d.mods = some ms)
    (hmc : d.modConfigs = some mc) (hp : d.paths = some p) (hpf : p.full)
    (hst : d.steam = some st) :
    loadConfigEntrypoint d =
      { server := s, mods := ms, modConfigs := mc, paths := p, steam := st } ∧
    loadConfigCli d =
      { server := s, mods := ms, modConfigs := mc, paths := p, steam := some st } := by
  unfold loadConfigEntrypoint loadConfigCli
  rw [hs, hm, hmc, hp, hst]
  simp only [Option.getD_some]
  rw [spreadServer_full _ hsf, spreadPaths_full _ hpf, spreadSteam_empty]
  exact ⟨rfl, rfl⟩

/-- A fully-populated server block. -/
def serverFull : PartialServer :=
  { name := some "My DayZ Server"
    password := some ""
    adminPassword := some "changeme123"
    maxPlayers := some 60
    port := some 2302
    steamQueryPort := some 27016
    battleEye := some true
    verifySignatures := some 2
    timeAcceleration := some 1
    nightTimeAcceleration := some 4
    persistent := some true
    disableThirdPerson := some false
    disableCrosshair := some false
    motd := some ["welcome"]
    mission := some "dayzOffline.chernarusplus" }

/-- A fully-populated paths block. -/
def pathsFull : PartialPaths :=
  { steamcmd := some "/opt/steamcmd"
    serverInstall := some "/opt/dayz-server"
    profiles := some "/opt/dayz-server/profiles"
    mods := some "/opt/dayz-server/mods" }

/-- A fully-populated steam block. -/
def steamFull : SteamBlock :=
  { username := some "user", password := some "pw", steamGuardCode := some "abc12" }

/-- A fully-populated raw document. -/
def docFull : PartialDoc :=
  { server := some serverFull
    mods := some modsFixture
    modConfigs := some { vppAdminTools := some { superAdmins := ["76561198000000000"] } }
    paths := some pathsFull
    steam := some steamFull }

/-- Witness for C5 on a concrete fully-populated document. -/
theorem resolve_idempotent_witness :
    loadConfigEntrypoint docFull =
      { server := serverFull, mods := modsFixture
        modConfigs := { vppAdminTools := some { superAdmins := ["76561198000000000"] } }
        paths := pathsFull, steam := steamFull } ∧
    loadConfigCli docFull =
      { server := serverFull, mods := modsFixture
        modConfigs := { vppAdminTools := some { superAdmins := ["76561198000000000"] } }
        paths := pathsFull, steam := some steamFull } :=
  resolve_idempotent docFull serverFull modsFixture
    { vppAdminTools := some { superAdmins := ["76561198000000000"] } }
    pathsFull steamFull rfl (by decide) rfl rfl rfl (by decide) rfl

/-- C6 (amended): for each credential field, the environment wins
whenever it supplies a non-empty value; when the variable is unset or
set to the empty string (JS falsy), the file-supplied value is kept. -/
theorem env_overrides_file (env : Env) (config : DayZServerConfig) :
    (∀ s, env.steamUsername = some s → s ≠ "" →
      (mergeEnvIntoConfig env config).steam.username = some s) ∧
    ((env.steamUsername = none ∨ env.steamUsername = some "") →
      (mergeEnvIntoConfig env config).steam.username = config.steam.username) ∧
    (∀ s, env.steamPassword = some s → s ≠ "" →
      (mergeEnvIntoConfig env config).steam.password = some s) ∧
    ((env.steamPassword = none ∨ env.steamPassword = some "") →
      (mergeEnvIntoConfig env config).steam.password = config.steam.password) ∧
    (∀ s, env.steamGuardCode = some s → s ≠ "" →
      (mergeEnvIntoConfig env config).steam.steamGuardCode = some s) ∧
    ((env.steamGuardCode = none ∨ env.steamGuardCode = some "") →
      (mergeEnvIntoConfig env config).steam.steamGuardCode = config.steam.steamGuardCode) := by
  refine ⟨?_, ?_, ?_, ?_, ?_, ?_⟩
  · intro s h hne
    simp [mergeEnvIntoConfig, envTruthy, h, hne]
  · rintro (h | h) <;> simp [mergeEnvIntoConfig, envTruthy, h]
  · intro s h hne
    simp [mergeEnvIntoConfig, envTruthy, h, hne]
  · rintro (h | h) <;> simp [mergeEnvIntoConfig, envTruthy, h]
  · intro s h hne
    simp [mergeEnvIntoConfig, envTruthy, h, hne]
  · rintro (h | h) <;> simp [mergeEnvIntoConfig, envTruthy, h]

/-- Witness for C6 with the username set in the environment, the
password set to the empty string, and the guard code unset. -/
theorem env_overrides_file_witness :
    (mergeEnvIntoConfig
      { steamUsername := some "user", steamPassword := some "" }
      { cfgFixture with steam :=
          { username := some "fileuser", password := some "filepw" } }).steam.username =
      some "user" ∧
    (mergeEnvIntoConfig
      { steamUsername := some "user", steamPassword := some "" }
      { cfgFixture with steam :=
          { username := some "fileuser", password := some "filepw" } }).steam.password =
      some "filepw" ∧
    (mergeEnvIntoConfig
      { steamUsername := some "user", steamPassword := some "" }
      { cfgFixture with steam :=
          { username := some "fileuser", password := some "filepw" } }).steam.steamGuardCode =
      none :=
  ⟨(env_overrides_file _ _).1 "user" rfl (by decide),
    (env_overrides_file _ _).2.2.2.1 (Or.inr rfl),
    (env_overrides_file _ _).2.2.2.2.2 (Or.inl rfl)⟩

/-- Counterexample for C6 as stated: the environment has the username
variable present (set to the empty string) and the file supplies
"fileuser"; the resolved value is the file's, not the environment's. -/
theorem env_overrides_file_counterexample :
    ({ steamUsername := some "" } : Env).steamUsername = some "" ∧
    (mergeEnvIntoConfig { steamUsername := some "" }
      { cfgFixture with steam := { username := some "fileuser" } }).steam.username =
      some "fileuser" ∧
    (some "fileuser" : Option String) ≠ some "" := by
  exact ⟨rfl, rfl, by decide⟩

/-- A successful installer result, as subprocess oracle. -/
def okResult : InstallResult := { success := true, message := "ok" }

/-- C8: with a valid server block and an empty mod list, and with
SteamCMD present and the server install succeeding, the entrypoint
`install` pipeline nevertheless aborts in step 3 — `cmdInstall`
constructs the ModManager without credentials, so `installAllMods`
throws even though there is no mod to install — and never reaches
server-config generation; zero mod-related subprocess invocations
occur. The CLI `install` command, which passes `getSteamCredentials()`
to the ModManager, completes through config generation and mod
configuration with zero mod-related subprocess invocations, as the
claim states. -/
theorem empty_mods_pipeline :
    (cmdInstall cfgFixture true okResult okResult fun _ => okResult) =
      (PipeOutcome.threwError "Steam credentials required for mod installation",
        [PipeEvent.serverInstallInvoked]) ∧
    ((cmdInstall cfgFixture true okResult okResult fun _ => okResult).2.filter
      isModInvocation) = [] ∧
    PipeEvent.serverConfigGenerated ∉
      (cmdInstall cfgFixture true okResult okResult fun _ => okResult).2 ∧
    (cliInstall cfgFixture { steamUsername := some "user", steamPassword := some "pw" }
        true okResult okResult fun _ => okResult) =
      (PipeOutcome.completed,
        [PipeEvent.serverInstallInvoked, PipeEvent.serverConfigGenerated,
          PipeEvent.modsConfigured]) ∧
    ((cliInstall cfgFixture { steamUsername := some "user", steamPassword := some "pw" }
        true okResult okResult fun _ => okResult).2.filter isModInvocation) = [] := by
  refine ⟨?_, by decide, by decide, ?_, by decide⟩ <;> rfl

lemma replaceFirst_no_match (repl : List Char) (s : List Char)
    (h : hasDirectiveMatch s = false) : replaceFirstDirective repl s = s := by
  induction s with
  | nil => rfl
  | cons c t ih =>
    rw [hasDirectiveMatch] at h
    simp only [Bool.or_eq_false_iff] at h
    rw [replaceFirstDirective]
    cases hm : matchDirective (c :: t) with
    | some r =>
      rw [hm] at h
      simp at h
    | none =>
      rw [ih h.2]

/-- C10: when disablePassword is true and serverDZ.cfg exists with
content that contains the substring vppDisablePassword but no text
matching the directive regex, updateServerConfig writes the file back
unchanged: the replacement performs no substitution and the append
branch is never taken, so no directive is added. -/
theorem updateServerConfig_inert (content : List Char)
    (h1 : containsSub content vppName = true)
    (h2 : hasDirectiveMatch content = false) :
    updateServerConfig true (some content) = some content := by
  have hne : content.isEmpty = false := by
    cases content with
    | nil =>
      rw [containsSub] at h1
      revert h1
      decide
    | cons c t => rfl
  simp only [updateServerConfig, hne, Bool.false_eq_true, if_false, h1, if_true]
  rw [replaceFirst_no_match _ _ h2]

/-- Witness for C10: a config whose only mention of the flag name is in
a comment line with no assignment. -/
theorem updateServerConfig_inert_witness :
    updateServerConfig true (some "// vppDisablePassword comes later\n".toList) =
      some "// vppDisablePassword comes later\n".toList :=
  updateServerConfig_inert "// vppDisablePassword comes later\n".toList
    (by decide) (by decide)

end DayZ
